import Mathlib

/-!
Verification development for the transaction normalization, categorization and
aggregation pipeline of the crewai-bank-account-agent repository.

The Lean definitions below are a shallow embedding of the Python sources:

* `src/processors/transaction_processor.py` (`TransactionProcessor`):
  `categoryRules`, `categorizeAux` / `categorizeTransaction`, `generateTags`,
  `detectRecurringPattern`, `processTransactions`;
* `src/processors/cost_analyzer.py` (`CostAnalyzer`):
  `findDuplicateSubscriptions`, `findSavingsOpportunities`,
  `monthlySpendCA` / `analyzeSpendingTrend`, `analyzeTransactions`;
* `src/utils/data_processor.py`: `calculateSummaryStats`.

Modelling conventions:

* Python floats carrying money amounts are modelled as exact rationals (`ℚ`);
* pandas timestamps are modelled by `Date` (calendar triples); a string date
  that `pd.to_datetime` cannot parse is modelled by `parseDate` returning
  `none`, and operations of the source that raise a Python exception are
  modelled with `Except String`, returning `.error`;
* python `needle in hay` substring tests are `strContains`; `str.lower` is
  `lowerStr` (both implemented structurally over `List Char` so that they
  evaluate by kernel reduction);
* the merchant regexes of the source all have the shape  r".*\bW\b.*"  for a
  literal word W, and are applied with `re.match`; such a regex matches a
  string exactly when W occurs in it delimited by word boundaries, which is
  what `containsWordBounded` computes (the sole discrepancy, that a regex dot
  does not match a newline character, is irrelevant to every claim below);
* pandas `groupby` aggregations are modelled by deduplicated key lists plus
  `List.filter`; where a claim is insensitive to the ordering of the groups
  this is noted at the definition.
-/

/-! ## Structural string utilities -/

/-- Test whether `needle` is a prefix of `hay` (over character lists). -/
def isPrefixChars : List Char → List Char → Bool
  | [], _ => true
  | _ :: _, [] => false
  | a :: as, b :: bs => a == b && isPrefixChars as bs

/-- Test whether `needle` occurs as a contiguous sublist of `hay`. -/
def isInfixChars (needle : List Char) : List Char → Bool
  | [] => isPrefixChars needle []
  | c :: rest => isPrefixChars needle (c :: rest) || isInfixChars needle rest

/-- Embeds the python substring test `needle in hay`. -/
def strContains (hay needle : String) : Bool :=
  isInfixChars needle.data hay.data

/-- Embeds python `str.lower` (ASCII case folding, as used by the source on
ASCII descriptions, merchants and category names). -/
def lowerStr (s : String) : String :=
  String.mk (s.data.map Char.toLower)

/-- A regex word character, python `\w` restricted to ASCII. -/
def isWordChar (c : Char) : Bool :=
  c.isAlphanum || c == '_'

/-- The character just before a candidate word occurrence (none at the start
of the string) must not be a word character for `\b` to hold there. -/
def boundaryBefore : Option Char → Bool
  | none => true
  | some c => !isWordChar c

/-- Does the word `w` occur at the head of `rest` with a word boundary on both
sides, `pre` being the character immediately preceding `rest`? -/
def wordOccursAt (w : List Char) (pre : Option Char) (rest : List Char) : Bool :=
  boundaryBefore pre && isPrefixChars w rest &&
    (match rest.drop w.length with
     | [] => true
     | c :: _ => !isWordChar c)

/-- Scan of `containsWordBounded`: try every position of the string. -/
def containsWordAux (w : List Char) (pre : Option Char) : List Char → Bool
  | [] => wordOccursAt w pre []
  | c :: rest => wordOccursAt w pre (c :: rest) || containsWordAux w (some c) rest

/-- Embeds `re.match(r".*\bW\b.*", s)` for a literal word `W`: the word occurs
somewhere in `s` delimited by word boundaries. All merchant patterns of
`TransactionProcessor.category_rules` have exactly this shape. -/
def containsWordBounded (w s : String) : Bool :=
  containsWordAux w.data none s.data

/-! ## Dates

`pd.to_datetime` applied to the string date field is modelled by `parseDate`
on ISO `YYYY-MM-DD` prefixes; strings outside this grammar model the
unparseable dates that make `pd.to_datetime` raise. -/

/-- A parsed calendar date (the part of a pandas timestamp the pipeline
reads: `dt.month`, `dt.year`, `dt.day_name`, month grouping). -/
structure Date where
  year : Nat
  month : Nat
  day : Nat
  deriving Repr, DecidableEq

/-- Split a character list at a separator (like `str.split`). -/
def splitOnChar (sep : Char) : List Char → List (List Char)
  | [] => [[]]
  | c :: rest =>
    let r := splitOnChar sep rest
    if c == sep then [] :: r
    else
      match r with
      | [] => [[c]]
      | g :: gs => (c :: g) :: gs

/-- Accumulating decimal digit parser. -/
def digitsToNat : List Char → Nat → Option Nat
  | [], acc => some acc
  | c :: cs, acc =>
    if c.isDigit then digitsToNat cs (acc * 10 + (c.toNat - 48)) else none

/-- Parse a non-empty all-digit character list. -/
def parseNatChars (cs : List Char) : Option Nat :=
  if cs.isEmpty then none else digitsToNat cs 0

/-- Is the year a leap year (proleptic Gregorian, as pandas uses)? -/
def isLeap (y : Nat) : Bool :=
  (y % 4 == 0 && y % 100 != 0) || y % 400 == 0

/-- Number of days of month `m` of year `y`. -/
def daysInMonth (y m : Nat) : Nat :=
  if m == 2 then (if isLeap y then 29 else 28)
  else if m == 4 || m == 6 || m == 9 || m == 11 then 30
  else 31

/-- Embeds `pd.to_datetime` on the string date field: an ISO `YYYY-MM-DD`
date parses to its calendar triple, everything else is a per-record parse
failure (`pd.to_datetime` raises on it). -/
def parseDate (s : String) : Option Date :=
  match splitOnChar '-' s.data with
  | [ys, ms, ds] =>
    match parseNatChars ys, parseNatChars ms, parseNatChars ds with
    | some y, some m, some d =>
      if 1 ≤ m && m ≤ 12 && 1 ≤ d && d ≤ daysInMonth y m then
        some ⟨y, m, d⟩
      else none
    | _, _, _ => none
  | _ => none

/-- Day count of a civil date (days from 0000-03-01, standard civil-days
formula over `Nat`; the pipeline only ever subtracts two of these or takes
the value modulo 7). -/
def rataDie (dt : Date) : Nat :=
  let y := if dt.month ≤ 2 then dt.year - 1 else dt.year
  let era := y / 400
  let yoe := y % 400
  let mp := (dt.month + 9) % 12
  let doy := (153 * mp + 2) / 5 + dt.day - 1
  let doe := yoe * 365 + yoe / 4 - yoe / 100 + doy
  era * 146097 + doe

/-- Weekday names in the order produced by pandas `day_name`, indexed so that
`dayOfWeekName` below agrees with the calendar. -/
def dayNames : List String :=
  ["Monday", "Tuesday", "Wednesday", "Thursday", "Friday", "Saturday", "Sunday"]

/-- Embeds `date.dt.day_name()`. -/
def dayOfWeekName (dt : Date) : String :=
  dayNames.getD ((rataDie dt + 2) % 7) ""

/-! ## Transaction processor (`src/processors/transaction_processor.py`) -/

/-- Embeds the `CategoryRule` dataclass. `merchant_patterns` stores, for each
source pattern r".*\bW\b.*", the word `W` (see `containsWordBounded`). -/
structure CategoryRule where
  name : String
  keywords : List String
  min_amount : Option ℚ := none
  max_amount : Option ℚ := none
  merchant_patterns : Option (List String) := none
  deriving Repr, DecidableEq

/-- Embeds `TransactionProcessor.category_rules` (the fixed ordered rule
list built in `__init__`). -/
def categoryRules : List CategoryRule :=
  [ { name := "Subscriptions",
      keywords := ["netflix", "spotify", "amazon prime", "subscription", "monthly", "yearly"],
      merchant_patterns := some ["subscription", "streaming"] },
    { name := "Utilities",
      keywords := ["electricity", "water", "gas", "internet", "phone", "utility", "broadband"],
      merchant_patterns := some ["energy", "utilities"] },
    { name := "Travel",
      keywords := ["airline", "hotel", "train", "taxi", "uber", "flight", "booking"],
      merchant_patterns := some ["airlines", "hotels"] },
    { name := "Food & Dining",
      keywords := ["restaurant", "cafe", "grocery", "food", "takeaway", "delivery"],
      merchant_patterns := some ["restaurant", "cafe"] },
    { name := "Entertainment",
      keywords := ["cinema", "theater", "concert", "movie", "game", "entertainment"],
      merchant_patterns := some ["cinema", "theater"] },
    { name := "Business",
      keywords := ["office", "software", "consulting", "business", "professional"],
      merchant_patterns := some ["consulting", "services"] },
    { name := "Shopping",
      keywords := ["amazon", "shop", "store", "retail", "purchase"],
      merchant_patterns := some ["store", "shop"] } ]

/-- Clause (a) of a rule in `_categorize_transaction`:
`any(keyword in description for keyword in rule.keywords)` (the description
argument is already lower-cased by the caller). -/
def keywordsMatch (r : CategoryRule) (description : String) : Bool :=
  r.keywords.any (fun kw => strContains description kw)

/-- Clause (b): `if rule.merchant_patterns and merchant:` followed by
`any(re.match(pattern, merchant) for pattern in rule.merchant_patterns)`.
The python truthiness test requires a non-`None`, non-empty pattern list and
a non-empty merchant string. -/
def merchantPatternsMatch (r : CategoryRule) (merchant : String) : Bool :=
  match r.merchant_patterns with
  | none => false
  | some pats =>
    !pats.isEmpty && !(merchant == "") &&
      pats.any (fun p => containsWordBounded p merchant)

/-- Clause (c): `if rule.min_amount is not None and rule.max_amount is not None:
if rule.min_amount <= amount <= rule.max_amount`. Note the source compares the
signed amount. -/
def amountRangeMatch (r : CategoryRule) (amount : ℚ) : Bool :=
  match r.min_amount, r.max_amount with
  | some lo, some hi => decide (lo ≤ amount) && decide (amount ≤ hi)
  | _, _ => false

/-- A rule fires when any of its three clauses holds (in the source the three
checks of one loop iteration each `return rule.name`). -/
def ruleMatches (r : CategoryRule) (description merchant : String) (amount : ℚ) : Bool :=
  keywordsMatch r description || merchantPatternsMatch r merchant || amountRangeMatch r amount

/-- The rule loop of `_categorize_transaction`: first matching rule wins,
falling through to `"Other"`. -/
def categorizeAux (description merchant : String) (amount : ℚ) : List CategoryRule → String
  | [] => "Other"
  | r :: rest =>
    if keywordsMatch r description then r.name
    else if merchantPatternsMatch r merchant then r.name
    else if amountRangeMatch r amount then r.name
    else categorizeAux description merchant amount rest

/-- An input record of `TransactionProcessor.process_transactions` (one dict
of the list argument; only the fields the processor reads are modelled).
`is_recurring` is `none` when the input dicts have no such key, which is what
`row.get("is_recurring")` observes inside `_generate_tags` — the pipeline adds
the `is_recurring` column only after the tags column. -/
structure RawTx where
  date : String
  amount : ℚ
  description : String
  merchant : String
  is_recurring : Option Bool := none
  deriving Repr, DecidableEq

/-- Embeds `_categorize_transaction` on a row: lower-case the description,
lower-case the merchant when truthy (else use `""`), then run the rule loop.
`float(row["amount"]) if row["amount"] else 0` is the identity on the rational
amount (both branches produce the same value). -/
def categorizeTransaction (t : RawTx) : String :=
  let description := lowerStr t.description
  let merchant := if t.merchant == "" then "" else lowerStr t.merchant
  categorizeAux description merchant t.amount categoryRules

/-- Embeds `_generate_tags`. `isRecurringCol` is the value that
`row.get("is_recurring")` sees when the tags column is computed; `category` is
the already-assigned category column. -/
def generateTags (amount : ℚ) (isRecurringCol : Bool) (category : String) : List String :=
  let tags : List String := []
  let tags := if amount > 1000 then tags ++ ["high_value"]
              else if amount < 10 then tags ++ ["low_value"]
              else tags
  let tags := if isRecurringCol then tags ++ ["recurring"] else tags
  let tags := if category != "Other" then tags ++ [lowerStr category] else tags
  tags

/-- The indicator list of `_detect_recurring_pattern`. -/
def recurringIndicators : List String :=
  ["subscription", "monthly", "recurring", "payment", "bill", "auto-pay"]

/-- Embeds `_detect_recurring_pattern`. -/
def detectRecurringPattern (description : String) : Bool :=
  recurringIndicators.any (fun ind => strContains (lowerStr description) ind)

/-- One output record of `process_transactions` (`df.to_dict("records")`). -/
structure ProcessedTx where
  date : Date
  amount : ℚ
  description : String
  merchant : String
  category : String
  month : Nat
  year : Nat
  day_of_week : String
  tags : List String
  is_recurring : Bool
  deriving Repr, DecidableEq

/-- The per-row enrichment of `process_transactions`, in source column order:
category, month, year, day_of_week, tags, is_recurring. The tags column is
computed from the *input* `is_recurring` value (`row.get("is_recurring")`),
because the `is_recurring` column is assigned only afterwards. -/
def enrichTx (t : RawTx) (d : Date) : ProcessedTx :=
  let category := categorizeTransaction t
  { date := d
    amount := t.amount
    description := t.description
    merchant := t.merchant
    category := category
    month := d.month
    year := d.year
    day_of_week := dayOfWeekName d
    tags := generateTags t.amount (t.is_recurring.getD false) category
    is_recurring := detectRecurringPattern t.description }

/-- Sequence an option-valued function over a list, failing when any element
fails (the all-or-nothing behaviour of a vectorized pandas conversion). -/
def mapOption {α β : Type} (f : α → Option β) : List α → Option (List β)
  | [] => some []
  | a :: l =>
    match f a, mapOption f l with
    | some b, some bs => some (b :: bs)
    | _, _ => none

/-- Embeds `TransactionProcessor.process_transactions`. The first step,
`df["date"] = pd.to_datetime(df["date"])`, converts every date of the batch
and raises on the first unparseable one — modelled by `mapOption` over
`parseDate`: one bad record makes the whole call return `.error`. -/
def processTransactions (txs : List RawTx) : Except String (List ProcessedTx) :=
  match mapOption (fun t => (parseDate t.date).map (fun d => (t, d))) txs with
  | none => Except.error "pd.to_datetime: unable to parse date"
  | some parsed => Except.ok (parsed.map (fun td => enrichTx td.1 td.2))

/-! ## Cost analyzer (`src/processors/cost_analyzer.py`) -/

/-- Embeds the `CostInsight` dataclass. -/
structure CostInsight where
  type : String
  description : String
  impact : ℚ
  recommendation : String
  priority : String
  deriving Repr, DecidableEq

/-- A row of the DataFrame handed to `CostAnalyzer` (the fields its savings
analysis reads: parsed date, amount, description, category). -/
structure ATx where
  date : Date
  amount : ℚ
  description : String
  category : String
  deriving Repr, DecidableEq

/-- Embeds `_find_duplicate_subscriptions`: group by `(description, amount)`,
count the rows of each group, and keep the groups with count greater than 1.
Each kept group is one record `(description, amount, count)`. pandas lists the
groups in sorted key order while `dedup` keeps first-occurrence order; every
claim below only sums over the groups, so the order is immaterial. -/
def findDuplicateSubscriptions (subs : List ATx) : List (String × ℚ × Nat) :=
  let keys := (subs.map (fun t => (t.description, t.amount))).dedup
  let grouped := keys.map (fun k =>
    (k.1, k.2, (subs.filter (fun t => decide ((t.description, t.amount) = k))).length))
  grouped.filter (fun g => decide (g.2.2 > 1))

/-- Comparison used by `nsmallest(10, "amount")`: ascending signed amount,
stable (pandas keeps the first of equal rows, as `List.mergeSort` does). -/
def amountLe (a b : ATx) : Bool :=
  decide (a.amount ≤ b.amount)

/-- Chronological order on `(year, month)` period keys, as pandas orders
`dt.to_period("M")` groups. -/
def periodLe (a b : Nat × Nat) : Bool :=
  decide (a.1 < b.1 ∨ (a.1 = b.1 ∧ a.2 ≤ b.2))

/-- Embeds the `groupby(df["date"].dt.to_period("M"))["amount"].sum()` series
of `_analyze_spending_trend`: one `(period, summed amount)` entry per distinct
month of the batch, in chronological order. -/
def monthlySpendCA (txs : List ATx) : List ((Nat × Nat) × ℚ) :=
  let keys := ((txs.map (fun t => (t.date.year, t.date.month))).dedup).mergeSort periodLe
  keys.map (fun k =>
    (k, ((txs.filter (fun t => decide ((t.date.year, t.date.month) = k))).map ATx.amount).sum))

/-- Embeds `_analyze_spending_trend`: with fewer than two months the trend is
0; otherwise `(last - first) / first`, guarded to 0 when the first month sums
to 0. -/
def analyzeSpendingTrend (txs : List ATx) : ℚ :=
  let ms := monthlySpendCA txs
  if ms.length < 2 then 0
  else
    match ms.head?, ms.getLast? with
    | some f, some l => if f.2 ≠ 0 then (l.2 - f.2) / f.2 else 0
    | _, _ => 0

/-- The duplicate-subscription block of `_find_savings_opportunities`: when
the subscription rows are non-empty and some `(description, amount)` group
among them has more than one row, emit one high-priority insight whose impact
is the sum of the `amount` entry of each flagged group record (each group
contributes its per-transaction amount once). -/
def duplicateInsights (txs : List ATx) : List CostInsight :=
  let subscriptions := txs.filter (fun t => t.category == "Subscriptions")
  if subscriptions.isEmpty then []
  else
    let duplicate_subs := findDuplicateSubscriptions subscriptions
    if duplicate_subs.isEmpty then []
    else
      [{ type := "duplicate_subscriptions"
         description := "Found potential duplicate subscriptions"
         impact := (duplicate_subs.map (fun d => d.2.1)).sum
         recommendation := "Review and consolidate duplicate subscriptions"
         priority := "high" }]

/-- The high-fee block of `_find_savings_opportunities`:
`df[df["amount"] < 0].nsmallest(10, "amount")` — the (up to) 10 expense rows
with the smallest signed amount — and, when non-empty, one medium-priority
insight whose impact is the absolute value of their summed amounts. -/
def highFeeInsights (txs : List ATx) : List CostInsight :=
  let high_fees := ((txs.filter (fun t => decide (t.amount < 0))).mergeSort amountLe).take 10
  if high_fees.isEmpty then []
  else
    [{ type := "high_fees"
       description := "Identified transactions with high fees"
       impact := |(high_fees.map ATx.amount).sum|
       recommendation := "Consider alternative payment methods or providers"
       priority := "medium" }]

/-- The spending-trend block of `_find_savings_opportunities`: one
medium-priority insight when the month-over-month increase exceeds 10%. The
source interpolates the percentage into the description; the description is
modelled by its fixed prefix. -/
def trendInsights (txs : List ATx) : List CostInsight :=
  let monthly_increase := analyzeSpendingTrend txs
  if monthly_increase > 1 / 10 then
    [{ type := "spending_increase"
       description := "Monthly spending increased by "
       impact := monthly_increase
       recommendation := "Review recent spending patterns for unnecessary increases"
       priority := "medium" }]
  else []

/-- Embeds `_find_savings_opportunities`: the three insight blocks appended in
source order. -/
def findSavingsOpportunities (txs : List ATx) : List CostInsight :=
  duplicateInsights txs ++ highFeeInsights txs ++ trendInsights txs

/-- An input record of `CostAnalyzer.analyze_transactions` (a processed
transaction serialized back to a dict; the date field is again a string for
`pd.to_datetime`). -/
structure ARawTx where
  date : String
  amount : ℚ
  description : String
  category : String
  deriving Repr, DecidableEq

/-- Embeds `CostAnalyzer.analyze_transactions`. On the empty batch
`pd.DataFrame([])` has no columns at all, so the very first statement
`df["date"] = pd.to_datetime(df["date"])` raises `KeyError: "date"`; on a
non-empty batch an unparseable date raises inside `pd.to_datetime`. Otherwise
the savings opportunities are computed (the category/recurring/pattern summary
blocks of the source are not modelled: no claim mentions them, and on the
non-empty batches they only aggregate). -/
def analyzeTransactions (txs : List ARawTx) : Except String (List CostInsight) :=
  if txs.isEmpty then Except.error "KeyError: date"
  else
    match mapOption (fun t => (parseDate t.date).map (fun d => ATx.mk d t.amount t.description t.category)) txs with
    | none => Except.error "pd.to_datetime: unable to parse date"
    | some ts => Except.ok (findSavingsOpportunities ts)

/-! ## Summary statistics (`src/utils/data_processor.py`) -/

/-- One entry of the `monthly_summary` list. -/
structure MonthlyEntry where
  month : String
  income : ℚ
  expenses : ℚ
  net : ℚ
  deriving Repr, DecidableEq

/-- The dictionary returned by `calculate_summary_stats`. The two top-category
entries are association lists `category → absolute summed amount`. -/
structure SummaryStats where
  total_income : ℚ
  total_expenses : ℚ
  net_cashflow : ℚ
  avg_daily_expense : ℚ
  top_expense_categories : List (String × ℚ)
  top_income_categories : List (String × ℚ)
  monthly_summary : List MonthlyEntry
  deriving Repr, DecidableEq

/-- A row of the DataFrame handed to `calculate_summary_stats` (the fields it
reads: parsed date, amount, and the `custom_category` column added by
`categorize_transactions`). -/
structure STx where
  date : Date
  amount : ℚ
  custom_category : String
  deriving Repr, DecidableEq

/-- Left-pad a decimal numeral to two digits. -/
def pad2 (n : Nat) : String :=
  if n < 10 then "0" ++ toString n else toString n

/-- Left-pad a decimal numeral to four digits. -/
def pad4 (n : Nat) : String :=
  if n < 10 then "000" ++ toString n
  else if n < 100 then "00" ++ toString n
  else if n < 1000 then "0" ++ toString n
  else toString n

/-- Embeds `df["date"].dt.strftime("%Y-%m")`, the month grouping key. -/
def monthKey (d : Date) : String :=
  pad4 d.year ++ "-" ++ pad2 d.month

/-- String comparison used to order the month keys; zero-padded `YYYY-MM`
keys sort lexicographically exactly in chronological order, which is how
pandas `groupby("month")` orders its groups. -/
def strLe (a b : String) : Bool :=
  decide (a ≤ b)

/-- The distinct month keys of the batch, in the sorted order pandas
`groupby("month")` iterates them. -/
def sortedMonthKeys (txs : List STx) : List String :=
  ((txs.map (fun t => monthKey t.date)).dedup).mergeSort strLe

/-- Descending order on the summed values, as `sort_values(ascending=False)`. -/
def sumDesc (a b : String × ℚ) : Bool :=
  decide (b.2 ≤ a.2)

/-- Embeds the `top_expense_categories` computation: per-category sums of the
expense rows, absolute value, sorted descending, first five. -/
def topExpenseCategories (txs : List STx) : List (String × ℚ) :=
  let expense := txs.filter (fun t => decide (t.amount < 0))
  let keys := ((expense.map STx.custom_category).dedup).mergeSort strLe
  let sums := keys.map (fun k =>
    (k, |((expense.filter (fun t => t.custom_category == k)).map STx.amount).sum|))
  (sums.mergeSort sumDesc).take 5

/-- Embeds the `top_income_categories` computation: per-category sums of the
income rows, sorted descending, first five. -/
def topIncomeCategories (txs : List STx) : List (String × ℚ) :=
  let income := txs.filter (fun t => decide (t.amount ≥ 0))
  let keys := ((income.map STx.custom_category).dedup).mergeSort strLe
  let sums := keys.map (fun k =>
    (k, ((income.filter (fun t => t.custom_category == k)).map STx.amount).sum))
  (sums.mergeSort sumDesc).take 5

/-- The per-month entry of `monthly_summary`: income, expenses (absolute sum
of the negative amounts) and net, scoped to the rows of one month key. -/
def monthlyEntry (txs : List STx) (k : String) : MonthlyEntry :=
  let month_df := txs.filter (fun t => decide (monthKey t.date = k))
  let month_income := ((month_df.filter (fun t => decide (t.amount ≥ 0))).map STx.amount).sum
  let month_expenses := |((month_df.filter (fun t => decide (t.amount < 0))).map STx.amount).sum|
  { month := k
    income := month_income
    expenses := month_expenses
    net := month_income - month_expenses }

/-- Embeds `calculate_summary_stats`. The empty batch takes the explicit
all-zero early return of the source; otherwise income rows are the amounts
`>= 0`, expense rows the amounts `< 0`, and the monthly summary has one entry
per distinct month key. -/
def calculateSummaryStats (txs : List STx) : SummaryStats :=
  if txs.isEmpty then
    { total_income := 0
      total_expenses := 0
      net_cashflow := 0
      avg_daily_expense := 0
      top_expense_categories := []
      top_income_categories := []
      monthly_summary := [] }
  else
    let total_income := ((txs.filter (fun t => decide (t.amount ≥ 0))).map STx.amount).sum
    let total_expenses := |((txs.filter (fun t => decide (t.amount < 0))).map STx.amount).sum|
    let ds := txs.map (fun t => rataDie t.date)
    let date_range := (ds.max?.getD 0) - (ds.min?.getD 0)
    { total_income := total_income
      total_expenses := total_expenses
      net_cashflow := total_income - total_expenses
      avg_daily_expense := total_expenses / (max 1 date_range : Nat)
      top_expense_categories := topExpenseCategories txs
      top_income_categories := topIncomeCategories txs
      monthly_summary := (sortedMonthKeys txs).map (monthlyEntry txs) }

/-! ## Categorization: first-match semantics (claims C4, C5) -/

/-- The rule loop returns the name of the first rule that fires, and `"Other"`
when none does, for any rule list. -/
theorem categorizeAux_eq_find (d m : String) (a : ℚ) (rules : List CategoryRule) :
    categorizeAux d m a rules =
      ((rules.find? (fun r => ruleMatches r d m a)).map CategoryRule.name).getD "Other" := by
  induction rules with
  | nil => rfl
  | cons r rest ih =>
    simp only [categorizeAux]
    by_cases h1 : keywordsMatch r d
    · have hm : ruleMatches r d m a = true := by simp [ruleMatches, h1]
      simp [List.find?, h1, hm]
    · by_cases h2 : merchantPatternsMatch r m
      · have hm : ruleMatches r d m a = true := by simp [ruleMatches, h2]
        simp [List.find?, h1, h2, hm]
      · by_cases h3 : amountRangeMatch r a
        · have hm : ruleMatches r d m a = true := by simp [ruleMatches, h3]
          simp [List.find?, h1, h2, h3, hm]
        · have hm : ruleMatches r d m a = false := by
            simp [ruleMatches, h1, h2, h3]
          simp [List.find?, h1, h2, h3, hm, ih]

/-- None of the seven fixed rules is named `"Other"`. -/
theorem categoryRules_name_ne_other : ∀ r ∈ categoryRules, r.name ≠ "Other" := by
  decide

/-- Claim C4: for every transaction, the assigned category is the name of the
first rule of the fixed ordered rule list whose keyword, merchant-pattern or
amount-range clause fires (first match wins), and it is `"Other"` exactly when
no rule fires at all. -/
theorem categorize_first_match_wins (t : RawTx) :
    categorizeTransaction t =
      (((categoryRules.find? (fun r =>
          ruleMatches r (lowerStr t.description)
            (if t.merchant == "" then "" else lowerStr t.merchant) t.amount)).map
        CategoryRule.name).getD "Other")
    ∧ (categorizeTransaction t = "Other" ↔
        ∀ r ∈ categoryRules,
          ruleMatches r (lowerStr t.description)
            (if t.merchant == "" then "" else lowerStr t.merchant) t.amount = false) := by
  have heq := categorizeAux_eq_find (lowerStr t.description)
    (if t.merchant == "" then "" else lowerStr t.merchant) t.amount categoryRules
  have hct : categorizeTransaction t = categorizeAux (lowerStr t.description)
      (if t.merchant == "" then "" else lowerStr t.merchant) t.amount categoryRules := rfl
  refine ⟨hct.trans heq, ?_⟩
  rw [hct, heq]
  cases hf : categoryRules.find? (fun r =>
      ruleMatches r (lowerStr t.description)
        (if t.merchant == "" then "" else lowerStr t.merchant) t.amount) with
  | none =>
    rw [List.find?_eq_none] at hf
    simp only [Option.map_none', Option.getD_none, true_iff]
    intro r hr
    simpa using hf r hr
  | some r0 =>
    have hmem := List.mem_of_find?_eq_some hf
    have hpred0 := List.find?_some hf
    have hpred : ruleMatches r0 (lowerStr t.description)
        (if t.merchant == "" then "" else lowerStr t.merchant) t.amount = true := hpred0
    simp only [Option.map_some', Option.getD_some]
    constructor
    · intro hname
      exact absurd hname (categoryRules_name_ne_other r0 hmem)
    · intro hall
      rw [hall r0 hmem] at hpred
      simp at hpred

/-- Claim C5 (amended): when both bounds are set, the amount-range clause
fires exactly when the signed amount — not its absolute value — lies within
the closed interval of the two bounds. -/
theorem amount_range_clause_signed (r : CategoryRule) (lo hi a : ℚ)
    (hlo : r.min_amount = some lo) (hhi : r.max_amount = some hi) :
    (amountRangeMatch r a = true ↔ lo ≤ a ∧ a ≤ hi) := by
  simp [amountRangeMatch, hlo, hhi]

/-- A rule with both bounds set, used to exercise the amount-range clause. -/
def demoRangeRule : CategoryRule :=
  { name := "Range", keywords := [], min_amount := some 10, max_amount := some 50 }

/-- Claim C5, counterexample: a transaction of amount -30 has absolute amount
30 inside [10, 50], yet the clause does not fire — the clause tests the signed
amount, refuting the absolute-value reading. -/
theorem amount_range_absolute_refuted :
    ¬ (amountRangeMatch demoRangeRule (-30) = true ↔
        ((10 : ℚ) ≤ |(-30 : ℚ)| ∧ |(-30 : ℚ)| ≤ 50)) := by
  decide

/-- Witness for `amount_range_clause_signed` at the rule `[10, 50]` and
amount 20. -/
theorem amount_range_clause_signed_witness :
    demoRangeRule.min_amount = some 10 ∧ demoRangeRule.max_amount = some 50 ∧
      (amountRangeMatch demoRangeRule 20 = true ↔ (10 : ℚ) ≤ 20 ∧ (20 : ℚ) ≤ 50) :=
  ⟨rfl, rfl, amount_range_clause_signed demoRangeRule 10 50 20 rfl rfl⟩

/-! ## Empty batches and per-record failures (claims C1, C3, C6) -/

/-- Claim C1: on the empty batch `calculate_summary_stats` does return the
all-zero summary with empty collections, but `CostAnalyzer.analyze_transactions`
raises (`pd.DataFrame([])` has no `date` column, so its very first statement
fails with a `KeyError`) instead of returning an empty insight list. -/
theorem empty_batch_summary_zero_and_analyzer_raises :
    calculateSummaryStats [] = ⟨0, 0, 0, 0, [], [], []⟩
    ∧ analyzeTransactions [] = Except.error "KeyError: date" :=
  ⟨rfl, rfl⟩

/-- Sequencing an option-valued function fails as soon as one element fails. -/
theorem mapOption_eq_none_of_mem {α β : Type} (f : α → Option β) :
    ∀ (l : List α), (∃ t ∈ l, f t = none) → mapOption f l = none := by
  intro l
  induction l with
  | nil => rintro ⟨t, ht, -⟩; cases ht
  | cons a l ih =>
    rintro ⟨t, ht, hp⟩
    rcases List.mem_cons.mp ht with rfl | hmem
    · simp [mapOption, hp]
    · rw [mapOption, ih ⟨t, hmem, hp⟩]
      cases f a <;> rfl

/-- Claim C3 (amended): one record with an unparseable date makes
`process_transactions` fail for the whole batch — `pd.to_datetime` raises and
no per-record result is produced. -/
theorem bad_date_aborts_batch (txs : List RawTx)
    (h : ∃ t ∈ txs, parseDate t.date = none) :
    processTransactions txs = Except.error "pd.to_datetime: unable to parse date" := by
  unfold processTransactions
  rw [mapOption_eq_none_of_mem _ txs
    (by obtain ⟨t, ht, hp⟩ := h; exact ⟨t, ht, by simp [hp]⟩)]

/-- A record whose date parses. -/
def goodRaw : RawTx :=
  { date := "2024-01-15", amount := 20, description := "Coffee", merchant := "" }

/-- A record whose date does not parse. -/
def badRaw : RawTx :=
  { date := "not-a-date", amount := 5, description := "Mystery", merchant := "" }

/-- Claim C3, counterexample: a two-record batch whose second record has an
unparseable date is rejected wholesale — the good first record is not
returned, refuting the drop-and-continue claim. -/
theorem batch_tolerance_refuted :
    processTransactions [goodRaw, badRaw]
      = Except.error "pd.to_datetime: unable to parse date" := by
  rfl

/-- Witness for `bad_date_aborts_batch` on the concrete two-record batch. -/
theorem bad_date_aborts_batch_witness :
    (∃ t ∈ [goodRaw, badRaw], parseDate t.date = none)
    ∧ processTransactions [goodRaw, badRaw]
        = Except.error "pd.to_datetime: unable to parse date" :=
  ⟨⟨badRaw, by decide, by decide⟩,
    bad_date_aborts_batch _ ⟨badRaw, by decide, by decide⟩⟩

/-- A transaction whose description marks it as recurring. -/
def gymRaw : RawTx :=
  { date := "2024-01-15", amount := 30, description := "Monthly Gym Membership", merchant := "" }

/-- The record `process_transactions` produces for `gymRaw`. -/
def gymOut : ProcessedTx :=
  { date := ⟨2024, 1, 15⟩
    amount := 30
    description := "Monthly Gym Membership"
    merchant := ""
    category := "Subscriptions"
    month := 1
    year := 2024
    day_of_week := "Monday"
    tags := ["subscriptions"]
    is_recurring := true }

/-- Claim C6: the enriched record for a recurring-described transaction has
`is_recurring = true` but its tags do not contain `"recurring"` — the tags
column is computed before the `is_recurring` column exists, so the
`"recurring"` tag can never be set from it. -/
theorem recurring_tag_never_set :
    processTransactions [gymRaw] = Except.ok [gymOut]
    ∧ gymOut.is_recurring = true
    ∧ "recurring" ∉ gymOut.tags := by
  exact ⟨rfl, rfl, by decide⟩

/-! ## Aggregation invariants (claims C7, C8) -/

/-- Splitting a mapped sum along a boolean predicate. -/
theorem sum_map_filter_split {α : Type} (p : α → Bool) (f : α → ℚ) :
    ∀ l : List α,
      ((l.filter p).map f).sum + ((l.filter (fun a => !p a)).map f).sum = (l.map f).sum := by
  intro l
  induction l with
  | nil => simp
  | cons a l ih =>
    by_cases h : p a
    · simp only [List.filter_cons, h, Bool.not_true, if_true]
      simp only [List.map_cons, List.sum_cons]
      rw [← ih]
      ring_nf
      simp [add_assoc, add_comm, add_left_comm]
    · simp only [List.filter_cons, h, Bool.not_false]
      simp only [List.map_cons, List.sum_cons]
      rw [← ih]
      ring_nf
      simp [add_assoc, add_comm, add_left_comm]

/-- Summing the per-group sums of a grouping over a duplicate-free covering
key list reproduces the total sum. -/
theorem sum_over_groups {α κ : Type} [DecidableEq κ] (key : α → κ) (f : α → ℚ) :
    ∀ (keys : List κ), keys.Nodup → ∀ (l : List α), (∀ a ∈ l, key a ∈ keys) →
      (keys.map (fun k => ((l.filter (fun a => decide (key a = k))).map f).sum)).sum
        = (l.map f).sum := by
  intro keys
  induction keys with
  | nil =>
    intro _ l hcov
    cases l with
    | nil => simp
    | cons a l => exact absurd (hcov a (List.mem_cons_self a l)) (List.not_mem_nil _)
  | cons k ks ih =>
    intro hnd l hcov
    have hk_notmem : k ∉ ks := (List.nodup_cons.mp hnd).1
    have hnd' : ks.Nodup := (List.nodup_cons.mp hnd).2
    simp only [List.map_cons, List.sum_cons]
    have hsplit := sum_map_filter_split (fun a => decide (key a = k)) f l
    rw [← hsplit]
    congr 1
    have hrest : ∀ k' ∈ ks,
        (l.filter (fun a => !decide (key a = k))).filter (fun a => decide (key a = k'))
          = l.filter (fun a => decide (key a = k')) := by
      intro k' hk'
      rw [List.filter_filter]
      apply List.filter_congr
      intro a _
      by_cases h : key a = k'
      · have hne : ¬ k' = k := fun hh => hk_notmem (hh ▸ hk')
        simp [h, hne]
      · simp [h]
    have hcov' : ∀ a ∈ l.filter (fun a => !decide (key a = k)), key a ∈ ks := by
      intro a ha
      have hmem := List.mem_of_mem_filter ha
      have hne : ¬ (key a = k) := by
        have := List.of_mem_filter ha
        simpa using this
      have := hcov a hmem
      rcases List.mem_cons.mp this with h | h
      · exact absurd h hne
      · exact h
    calc (ks.map (fun k' => ((l.filter (fun a => decide (key a = k'))).map f).sum)).sum
        = (ks.map (fun k' =>
            (((l.filter (fun a => !decide (key a = k))).filter
              (fun a => decide (key a = k'))).map f).sum)).sum := by
          apply congrArg
          apply List.map_congr_left
          intro k' hk'
          rw [hrest k' hk']
      _ = ((l.filter (fun a => !decide (key a = k))).map f).sum :=
          ih hnd' _ hcov'

/-- Claim C7: the summary statistics always satisfy
`net_cashflow = total_income - total_expenses` exactly, with both totals
non-negative; `total_income` is the sum of the amounts `>= 0` and
`total_expenses` the absolute value of the sum of the amounts `< 0`. -/
theorem summary_totals_invariant (txs : List STx) :
    (calculateSummaryStats txs).net_cashflow
        = (calculateSummaryStats txs).total_income - (calculateSummaryStats txs).total_expenses
    ∧ 0 ≤ (calculateSummaryStats txs).total_income
    ∧ 0 ≤ (calculateSummaryStats txs).total_expenses
    ∧ (calculateSummaryStats txs).total_income
        = ((txs.filter (fun t => decide (t.amount ≥ 0))).map STx.amount).sum
    ∧ (calculateSummaryStats txs).total_expenses
        = |((txs.filter (fun t => decide (t.amount < 0))).map STx.amount).sum| := by
  cases txs with
  | nil =>
    refine ⟨by simp [calculateSummaryStats], le_refl 0, le_refl 0,
      by simp [calculateSummaryStats], by simp [calculateSummaryStats]⟩
  | cons t ts =>
    refine ⟨rfl, ?_, abs_nonneg _, rfl, rfl⟩
    show 0 ≤ (((t :: ts).filter (fun u => decide (u.amount ≥ 0))).map STx.amount).sum
    apply List.sum_nonneg
    intro x hx
    obtain ⟨u, humem, rfl⟩ := List.mem_map.mp hx
    have := List.of_mem_filter humem
    simpa using this

/-- A mapped sum over nonpositive values is nonpositive. -/
theorem sum_map_nonpos {α : Type} (f : α → ℚ) :
    ∀ l : List α, (∀ a ∈ l, f a ≤ 0) → (l.map f).sum ≤ 0 := by
  intro l
  induction l with
  | nil => intro _; simp
  | cons a l ih =>
    intro h
    simp only [List.map_cons, List.sum_cons]
    have h1 := h a (List.mem_cons_self a l)
    have h2 := ih (fun b hb => h b (List.mem_cons_of_mem a hb))
    linarith

/-- The summed amounts of the expense rows of any batch are nonpositive. -/
theorem filtered_expense_sum_nonpos (X : List STx) :
    ((X.filter (fun u => decide (u.amount < 0))).map STx.amount).sum ≤ 0 := by
  apply sum_map_nonpos
  intro a ha
  have h := List.of_mem_filter ha
  have h2 : a.amount < 0 := by simpa using h
  linarith

/-- Negation distributes over a mapped list sum. -/
theorem sum_map_neg_eq {κ : Type} (l : List κ) (g : κ → ℚ) :
    (l.map (fun k => -(g k))).sum = -((l.map g).sum) := by
  induction l with
  | nil => simp
  | cons a l ih =>
    simp only [List.map_cons, List.sum_cons, ih]
    ring

/-- The sorted distinct month keys contain the month key of every row. -/
theorem mem_sortedMonthKeys (txs : List STx) :
    ∀ u ∈ txs, monthKey u.date ∈ sortedMonthKeys txs := by
  intro u hu
  unfold sortedMonthKeys
  rw [(List.mergeSort_perm _ strLe).mem_iff, List.mem_dedup]
  exact List.mem_map_of_mem _ hu

/-- The sorted distinct month keys are duplicate-free. -/
theorem nodup_sortedMonthKeys (txs : List STx) : (sortedMonthKeys txs).Nodup := by
  unfold sortedMonthKeys
  exact (List.mergeSort_perm _ strLe).nodup_iff.mpr (List.nodup_dedup _)


/-- Projection of the monthly summary of a non-empty batch. -/
theorem summary_cons_monthly (t : STx) (ts : List STx) :
    (calculateSummaryStats (t :: ts)).monthly_summary
      = (sortedMonthKeys (t :: ts)).map (monthlyEntry (t :: ts)) := rfl

/-- Projection of the total income of a non-empty batch. -/
theorem summary_cons_income (t : STx) (ts : List STx) :
    (calculateSummaryStats (t :: ts)).total_income
      = (((t :: ts).filter (fun u => decide (u.amount ≥ 0))).map STx.amount).sum := rfl

/-- Projection of the total expenses of a non-empty batch. -/
theorem summary_cons_expenses (t : STx) (ts : List STx) :
    (calculateSummaryStats (t :: ts)).total_expenses
      = |(((t :: ts).filter (fun u => decide (u.amount < 0))).map STx.amount).sum| := rfl

/-- The income entry of one month group. -/
theorem income_monthlyEntry (txs : List STx) (k : String) :
    (monthlyEntry txs k).income
      = (((txs.filter (fun u => decide (monthKey u.date = k))).filter
          (fun u => decide (u.amount ≥ 0))).map STx.amount).sum := rfl

/-- The expenses entry of one month group. -/
theorem expenses_monthlyEntry (txs : List STx) (k : String) :
    (monthlyEntry txs k).expenses
      = |(((txs.filter (fun u => decide (monthKey u.date = k))).filter
          (fun u => decide (u.amount < 0))).map STx.amount).sum| := rfl

set_option maxHeartbeats 1000000 in
/-- Claim C8: the monthly series partitions the batch — the month incomes sum
to `total_income` and the month expenses sum to `total_expenses` (exactly,
over ℚ). -/
theorem monthly_series_partitions_totals (txs : List STx) :
    (((calculateSummaryStats txs).monthly_summary).map MonthlyEntry.income).sum
        = (calculateSummaryStats txs).total_income
    ∧ (((calculateSummaryStats txs).monthly_summary).map MonthlyEntry.expenses).sum
        = (calculateSummaryStats txs).total_expenses := by
  cases txs with
  | nil => exact ⟨rfl, rfl⟩
  | cons t ts =>
    have hnd := nodup_sortedMonthKeys (t :: ts)
    rw [summary_cons_monthly, summary_cons_income, summary_cons_expenses]
    constructor
    · rw [List.map_map]
      have hstep : ∀ k ∈ sortedMonthKeys (t :: ts),
          (MonthlyEntry.income ∘ monthlyEntry (t :: ts)) k
            = ((((t :: ts).filter (fun u => decide (u.amount ≥ 0))).filter
                (fun u => decide (monthKey u.date = k))).map STx.amount).sum := by
        intro k _
        simp only [Function.comp_apply]
        rw [income_monthlyEntry]
        rw [List.filter_filter, List.filter_filter]
        apply congrArg List.sum
        apply congrArg (List.map STx.amount)
        apply List.filter_congr
        intro u _
        exact Bool.and_comm _ _
      rw [List.map_congr_left hstep]
      refine sum_over_groups (fun u => monthKey u.date) STx.amount _ hnd _ ?_
      intro u hu
      exact mem_sortedMonthKeys (t :: ts) u (List.mem_of_mem_filter hu)
    · rw [List.map_map]
      have hstep : ∀ k ∈ sortedMonthKeys (t :: ts),
          (MonthlyEntry.expenses ∘ monthlyEntry (t :: ts)) k
            = -(((((t :: ts).filter (fun u => decide (u.amount < 0))).filter
                (fun u => decide (monthKey u.date = k))).map STx.amount).sum) := by
        intro k _
        simp only [Function.comp_apply]
        rw [expenses_monthlyEntry]
        rw [abs_of_nonpos (filtered_expense_sum_nonpos _)]
        apply congrArg Neg.neg
        rw [List.filter_filter, List.filter_filter]
        apply congrArg List.sum
        apply congrArg (List.map STx.amount)
        apply List.filter_congr
        intro u _
        exact Bool.and_comm _ _
      rw [List.map_congr_left hstep]
      rw [sum_map_neg_eq]
      rw [sum_over_groups (fun u => monthKey u.date) STx.amount _ hnd _
        (fun u hu => mem_sortedMonthKeys (t :: ts) u (List.mem_of_mem_filter hu))]
      rw [abs_of_nonpos (filtered_expense_sum_nonpos _)]

/-! ## Duplicate subscriptions (claim C2) -/

/-- On a batch of exactly two subscription rows with the same description and
the same amount, the duplicate-subscription insight fires with impact equal to
that common amount (the single flagged group contributes its amount once) and
priority `"high"`. -/
theorem duplicate_pair_insight (t1 t2 : ATx)
    (hd : t2.description = t1.description) (ha : t2.amount = t1.amount)
    (hc1 : t1.category = "Subscriptions") (hc2 : t2.category = "Subscriptions") :
    (findSavingsOpportunities [t1, t2]).find? (fun i => i.type == "duplicate_subscriptions")
      = some { type := "duplicate_subscriptions"
               description := "Found potential duplicate subscriptions"
               impact := t1.amount
               recommendation := "Review and consolidate duplicate subscriptions"
               priority := "high" } := by
  obtain ⟨dt2, a2, ds2, c2⟩ := t2
  obtain ⟨dt1, a1, ds1, c1⟩ := t1
  simp only at hd ha hc1 hc2
  subst hd ha hc1 hc2
  have hdup : duplicateInsights [⟨dt1, a2, ds2, "Subscriptions"⟩, ⟨dt2, a2, ds2, "Subscriptions"⟩]
      = [{ type := "duplicate_subscriptions"
           description := "Found potential duplicate subscriptions"
           impact := a2
           recommendation := "Review and consolidate duplicate subscriptions"
           priority := "high" }] := by
    simp [duplicateInsights, findDuplicateSubscriptions, List.filter_cons,
      List.dedup_cons_of_mem, List.dedup_cons_of_not_mem]
  unfold findSavingsOpportunities
  rw [hdup, List.singleton_append, List.cons_append]
  rw [List.find?_cons_of_pos _ (by simp)]

/-- First of two identical subscription rows (amount 29.99). -/
def dupSub1 : ATx :=
  { date := ⟨2024, 1, 5⟩, amount := 29.99,
    description := "Monthly Gym Membership", category := "Subscriptions" }

/-- Second of two identical subscription rows (amount 29.99). -/
def dupSub2 : ATx :=
  { date := ⟨2024, 1, 20⟩, amount := 29.99,
    description := "Monthly Gym Membership", category := "Subscriptions" }

/-- Claim C2, counterexample: on the two identical 29.99 subscription rows the
duplicate-subscription insight fires with impact 29.99 — each flagged group
contributes its per-row amount once, not the 59.98 sum over its rows. -/
theorem duplicate_subscription_impact_refuted :
    (findSavingsOpportunities [dupSub1, dupSub2]).find?
        (fun i => i.type == "duplicate_subscriptions")
      = some { type := "duplicate_subscriptions"
               description := "Found potential duplicate subscriptions"
               impact := 29.99
               recommendation := "Review and consolidate duplicate subscriptions"
               priority := "high" }
    ∧ (29.99 : ℚ) ≠ 59.98 :=
  ⟨duplicate_pair_insight dupSub1 dupSub2 rfl rfl rfl rfl, by norm_num⟩

/-- Claim C2 (amended): for a batch of exactly two transactions with identical
description and identical amount 29.99 in category `"Subscriptions"`, the
duplicate-subscription insight fires with priority `"high"` and impact 29.99 —
the flagged group contributes its amount once, not per transaction. -/
theorem duplicate_subscription_impact_per_group (t1 t2 : ATx)
    (hd : t2.description = t1.description)
    (ha1 : t1.amount = 29.99) (ha2 : t2.amount = 29.99)
    (hc1 : t1.category = "Subscriptions") (hc2 : t2.category = "Subscriptions") :
    (findSavingsOpportunities [t1, t2]).find?
        (fun i => i.type == "duplicate_subscriptions")
      = some { type := "duplicate_subscriptions"
               description := "Found potential duplicate subscriptions"
               impact := 29.99
               recommendation := "Review and consolidate duplicate subscriptions"
               priority := "high" } := by
  have h := duplicate_pair_insight t1 t2 hd (ha2.trans ha1.symm) hc1 hc2
  rwa [ha1] at h

/-- Witness for `duplicate_subscription_impact_per_group` on the concrete
pair. -/
theorem duplicate_subscription_impact_per_group_witness :
    (dupSub2.description = dupSub1.description
      ∧ dupSub1.amount = 29.99 ∧ dupSub2.amount = 29.99
      ∧ dupSub1.category = "Subscriptions" ∧ dupSub2.category = "Subscriptions")
    ∧ (findSavingsOpportunities [dupSub1, dupSub2]).find?
          (fun i => i.type == "duplicate_subscriptions")
        = some { type := "duplicate_subscriptions"
                 description := "Found potential duplicate subscriptions"
                 impact := 29.99
                 recommendation := "Review and consolidate duplicate subscriptions"
                 priority := "high" } :=
  ⟨⟨rfl, rfl, rfl, rfl, rfl⟩,
    duplicate_subscription_impact_per_group dupSub1 dupSub2 rfl rfl rfl rfl rfl⟩

/-! ## Spending trend guard (claim C10) -/

/-- Every duplicate-subscription block insight carries that type tag. -/
theorem mem_duplicateInsights_type (txs : List ATx) :
    ∀ i ∈ duplicateInsights txs, i.type = "duplicate_subscriptions" := by
  intro i hi
  simp only [duplicateInsights] at hi
  split at hi
  · cases hi
  · split at hi
    · cases hi
    · rw [List.mem_singleton.mp hi]

/-- Every high-fee block insight carries that type tag. -/
theorem mem_highFeeInsights_type (txs : List ATx) :
    ∀ i ∈ highFeeInsights txs, i.type = "high_fees" := by
  intro i hi
  simp only [highFeeInsights] at hi
  split at hi
  · cases hi
  · rw [List.mem_singleton.mp hi]

/-- Claim C10: when the batch spans fewer than two distinct months, or the
first month sums to exactly zero, the spending trend is 0 — the division by
the first month total is guarded and never performed with a zero divisor —
and no spending-increase insight is emitted. -/
theorem spending_trend_guard (txs : List ATx)
    (h : (monthlySpendCA txs).length < 2
      ∨ ((monthlySpendCA txs).head?.map Prod.snd) = some 0) :
    analyzeSpendingTrend txs = 0
    ∧ ∀ i ∈ findSavingsOpportunities txs, i.type ≠ "spending_increase" := by
  have htrend : analyzeSpendingTrend txs = 0 := by
    unfold analyzeSpendingTrend
    by_cases hlen : (monthlySpendCA txs).length < 2
    · simp [hlen]
    · rcases h with h | h
      · exact absurd h hlen
      · cases hh : (monthlySpendCA txs).head? with
        | none => simp [hh, hlen]
        | some f =>
          rw [hh] at h
          have hf : f.2 = 0 := by simpa using h
          cases hl : (monthlySpendCA txs).getLast? with
          | none => simp [hlen, hh, hl]
          | some l => simp [hlen, hh, hl, hf]
  have htr : trendInsights txs = [] := by
    unfold trendInsights
    rw [htrend]
    exact if_neg (by norm_num)
  refine ⟨htrend, ?_⟩
  intro i hi
  unfold findSavingsOpportunities at hi
  rcases List.mem_append.mp hi with hi' | hi'
  · rcases List.mem_append.mp hi' with hi'' | hi''
    · rw [mem_duplicateInsights_type txs i hi'']
      decide
    · rw [mem_highFeeInsights_type txs i hi'']
      decide
  · rw [htr] at hi'
    cases hi'

/-- Witness for `spending_trend_guard` on the empty batch. -/
theorem spending_trend_guard_witness :
    ((monthlySpendCA ([] : List ATx)).length < 2
      ∨ ((monthlySpendCA ([] : List ATx)).head?.map Prod.snd) = some 0)
    ∧ (analyzeSpendingTrend ([] : List ATx) = 0
        ∧ ∀ i ∈ findSavingsOpportunities ([] : List ATx), i.type ≠ "spending_increase") :=
  ⟨Or.inl (by simp [monthlySpendCA]),
    spending_trend_guard [] (Or.inl (by simp [monthlySpendCA]))⟩

/-! ## High fees: bottom ten by signed amount (claim C9) -/

/-- In a sorted 11-element list whose maximum is `M`, the first ten elements
sum to the total minus `M` (the dropped last element is the maximum). -/
theorem sorted_take_ten_sum (sa : List ℚ) (M : ℚ)
    (hs : sa.Pairwise (fun a b => a ≤ b))
    (hlen : sa.length = 11) (hM : M ∈ sa) (hmax : ∀ a ∈ sa, a ≤ M) :
    (sa.take 10).sum = sa.sum - M := by
  have hsplit : sa.take 10 ++ sa.drop 10 = sa := List.take_append_drop 10 sa
  have hdlen : (sa.drop 10).length = 1 := by rw [List.length_drop, hlen]
  obtain ⟨x, hx⟩ := List.length_eq_one.mp hdlen
  have hxmem : x ∈ sa := by
    rw [← hsplit, hx]
    exact List.mem_append_right _ (List.mem_singleton_self x)
  have hxM : x ≤ M := hmax x hxmem
  have hMx : M ≤ x := by
    rw [← hsplit, hx] at hM hs
    rcases List.mem_append.mp hM with hMt | hMd
    · exact (List.pairwise_append.mp hs).2.2 M hMt x (List.mem_singleton_self x)
    · rw [List.mem_singleton.mp hMd]
  have hxeq : x = M := le_antisymm hxM hMx
  have hsum : sa.sum = (sa.take 10).sum + x := by
    conv_lhs => rw [← hsplit]
    rw [List.sum_append, hx]
    simp
  rw [hsum, hxeq]
  ring

/-- `amountLe` is transitive. -/
theorem amountLe_trans : ∀ a b c : ATx,
    amountLe a b = true → amountLe b c = true → amountLe a c = true := by
  intro a b c hab hbc
  simp only [amountLe, decide_eq_true_eq] at *
  exact le_trans hab hbc

/-- `amountLe` is total. -/
theorem amountLe_total : ∀ a b : ATx, (amountLe a b || amountLe b a) = true := by
  intro a b
  simp only [amountLe, Bool.or_eq_true, decide_eq_true_eq]
  exact le_total _ _

/-- Searching past a prefix none of whose elements satisfies the predicate. -/
theorem find?_append_of_none {α : Type} (p : α → Bool) :
    ∀ (A B : List α), (∀ a ∈ A, p a = false) → (A ++ B).find? p = B.find? p := by
  intro A
  induction A with
  | nil => intro B _; rfl
  | cons a A ih =>
    intro B hA
    rw [List.cons_append, List.find?_cons_of_neg, ih]
    · intro x hx
      exact hA x (List.mem_cons_of_mem a hx)
    · simp [hA a (List.mem_cons_self a A)]

set_option maxHeartbeats 1000000 in
set_option linter.unusedVariables false in
/-- Claim C9: on a batch whose expense rows number exactly 11 with pairwise
distinct amounts and signed maximum `M` among them, the high-fees insight has
priority `"medium"` and impact equal to the absolute sum of exactly the 10
most negative amounts — the total over all 11 minus the least negative one,
in absolute value. -/
theorem high_fees_bottom_ten (txs : List ATx) (M : ℚ)
    (h11 : (txs.filter (fun t => decide (t.amount < 0))).length = 11)
    (hnd : ((txs.filter (fun t => decide (t.amount < 0))).map ATx.amount).Nodup)
    (hM : M ∈ (txs.filter (fun t => decide (t.amount < 0))).map ATx.amount)
    (hmax : ∀ a ∈ (txs.filter (fun t => decide (t.amount < 0))).map ATx.amount, a ≤ M) :
    (findSavingsOpportunities txs).find? (fun i => i.type == "high_fees")
      = some { type := "high_fees"
               description := "Identified transactions with high fees"
               impact := |((txs.filter (fun t => decide (t.amount < 0))).map ATx.amount).sum - M|
               recommendation := "Consider alternative payment methods or providers"
               priority := "medium" } := by
  set negs := txs.filter (fun t => decide (t.amount < 0)) with hnegs
  set s := negs.mergeSort amountLe with hs
  have hperm : s.Perm negs := List.mergeSort_perm negs amountLe
  have hslen : s.length = 11 := hperm.length_eq.trans h11
  have hsorted : List.Pairwise (fun a b : ATx => amountLe a b = true) s :=
    List.sorted_mergeSort amountLe_trans amountLe_total negs
  have hsa : List.Pairwise (fun a b : ℚ => a ≤ b) (s.map ATx.amount) := by
    rw [List.pairwise_map]
    exact hsorted.imp (fun h => by simpa [amountLe] using h)
  have hpermq : (s.map ATx.amount).Perm (negs.map ATx.amount) := hperm.map ATx.amount
  have hMq : M ∈ s.map ATx.amount := hpermq.mem_iff.mpr hM
  have hmaxq : ∀ a ∈ s.map ATx.amount, a ≤ M := fun a ha =>
    hmax a (hpermq.mem_iff.mp ha)
  have hlenq : (s.map ATx.amount).length = 11 := by
    rw [List.length_map]; exact hslen
  have htake := sorted_take_ten_sum (s.map ATx.amount) M hsa hlenq hMq hmaxq
  have hsumq : (s.map ATx.amount).sum = (negs.map ATx.amount).sum := hpermq.sum_eq
  have himp : ((s.take 10).map ATx.amount).sum = (negs.map ATx.amount).sum - M := by
    rw [← List.map_take] at htake
    rw [htake, hsumq]
  have hne : ((s.take 10).isEmpty) = false := by
    have : (s.take 10).length = 10 := by
      rw [List.length_take, hslen]
      rfl
    cases hcase : s.take 10 with
    | nil => rw [hcase] at this; simp at this
    | cons a l => rfl
  have hfees : highFeeInsights txs
      = [{ type := "high_fees"
           description := "Identified transactions with high fees"
           impact := |((txs.filter (fun t => decide (t.amount < 0))).map ATx.amount).sum - M|
           recommendation := "Consider alternative payment methods or providers"
           priority := "medium" }] := by
    unfold highFeeInsights
    rw [← hnegs, ← hs]
    rw [if_neg (by rw [hne]; exact Bool.false_ne_true)]
    have : |((s.take 10).map ATx.amount).sum|
        = |((txs.filter (fun t => decide (t.amount < 0))).map ATx.amount).sum - M| := by
      rw [himp, hnegs]
    rw [this]
  have hdupty : ∀ a ∈ duplicateInsights txs,
      (fun i : CostInsight => i.type == "high_fees") a = false := by
    intro a ha
    have := mem_duplicateInsights_type txs a ha
    simp [this]
  unfold findSavingsOpportunities
  rw [List.append_assoc, find?_append_of_none _ _ _ hdupty, hfees,
    List.singleton_append, List.find?_cons_of_pos _ (by simp)]

/-- A concrete expense row for the high-fee scenario. -/
def feeTx (n : Nat) (a : ℚ) : ATx :=
  { date := ⟨2024, 1, n⟩, amount := a, description := "Fee", category := "Other" }

/-- Eleven expense rows with pairwise distinct negative amounts. -/
def feeBatch : List ATx :=
  [feeTx 1 (-1), feeTx 2 (-2), feeTx 3 (-3), feeTx 4 (-4), feeTx 5 (-5), feeTx 6 (-6),
   feeTx 7 (-7), feeTx 8 (-8), feeTx 9 (-9), feeTx 10 (-10), feeTx 11 (-11)]

/-- Witness for `high_fees_bottom_ten` on the eleven-expense batch, with the
least negative amount -1 as the maximum. -/
theorem high_fees_bottom_ten_witness :
    ((feeBatch.filter (fun t => decide (t.amount < 0))).length = 11
      ∧ ((feeBatch.filter (fun t => decide (t.amount < 0))).map ATx.amount).Nodup
      ∧ (-1 : ℚ) ∈ (feeBatch.filter (fun t => decide (t.amount < 0))).map ATx.amount
      ∧ ∀ a ∈ (feeBatch.filter (fun t => decide (t.amount < 0))).map ATx.amount, a ≤ (-1 : ℚ))
    ∧ (findSavingsOpportunities feeBatch).find? (fun i => i.type == "high_fees")
        = some { type := "high_fees"
                 description := "Identified transactions with high fees"
                 impact := |((feeBatch.filter (fun t => decide (t.amount < 0))).map ATx.amount).sum - (-1)|
                 recommendation := "Consider alternative payment methods or providers"
                 priority := "medium" } :=
  ⟨⟨by decide, by decide, by decide, by decide⟩,
    high_fees_bottom_ten feeBatch (-1) (by decide) (by decide) (by decide) (by decide)⟩
